import Mathlib

/-!
# Verification of the content-scoring engine of `src/url_collection/scrape.py`

This file is a shallow embedding, in Lean 4, of the `ContentFlowCore`
content-analysis engine (class `ContentFlowCore` in
`src/url_collection/scrape.py`) together with theorems settling the
specification claims about it.

Modelling conventions:

* Python `float` arithmetic is modelled as exact arithmetic over `ℚ`
  (and over `ℝ` for the similarity-based scores, which involve an l2
  normalisation and hence square roots).  All numeric literals of the
  source (`0.2`, `0.35`, ...) are carried over as exact rationals.
* Python strings are `String`; `str.split()` (whitespace split dropping
  empty fields), `str.split(sep)`, `str.lower()`, `str.strip()`,
  substring tests (`x in s`) and `startswith` are embedded by the
  `py*`-prefixed helpers below, each faithful to CPython semantics on
  the ASCII texts the engine manipulates.
* The mutable object state of `ContentFlowCore` (`self.vectorizer`,
  `self.content_cache`) is made explicit as a `CoreState` value that is
  threaded through the operations; a Python method that mutates `self`
  returns the new state.
* The external `sklearn.TfidfVectorizer(max_features=1000)` is embedded
  by its documented behaviour as used here: `fit_transform([content])`
  fits the vocabulary on the singleton corpus `[content]` (so every
  `idf` weight is `ln(2/2)+1 = 1`), tokenising with the default token
  pattern (lower-cased maximal runs of at least two word characters),
  and returns the l2-normalised term-frequency vector; `transform(t)`
  maps `t` onto the fitted vocabulary with the same normalisation and
  raises if the vectorizer is unfitted; `fit_transform` raises
  `ValueError` when the vocabulary is empty.
-/

/-! ## Python string primitives -/

/-- The whitespace characters of CPython's `str.split()` (ASCII part). -/
def isPySpace (c : Char) : Bool :=
  c == ' ' || c == '\t' || c == '\n' || c == '\x0d' || c == '\x0b' || c == '\x0c'

/-- One `foldr` step of whitespace splitting: a space closes the current word. -/
def splitWsStep (c : Char) (acc : List (List Char)) : List (List Char) :=
  if isPySpace c then [] :: acc
  else
    match acc with
    | [] => [[c]]
    | w :: ws => (c :: w) :: ws

/-- Python `s.split()` — split on whitespace runs, discarding empty fields. -/
def pyWords (s : String) : List String :=
  ((s.data.foldr splitWsStep []).filter (fun w => ¬ w.isEmpty)).map (fun w => String.mk w)

/-- `len(s.split())` of the source. -/
def wordCount (s : String) : Nat :=
  (pyWords s).length

/-- Auxiliary substring search over character lists. -/
def hasSubAux (pat : List Char) : List Char → Bool
  | [] => pat.isEmpty
  | c :: rest => pat.isPrefixOf (c :: rest) || hasSubAux pat rest

/-- Python `pat in s` (substring containment). -/
def containsSub (s pat : String) : Bool :=
  hasSubAux pat.data s.data

/-- Python `s.lower()` (ASCII; all keyword tables of the source are ASCII). -/
def pyLower (s : String) : String :=
  String.mk (s.data.map Char.toLower)

/-- Fuel-driven worker for `str.split(sep)`: if the separator is a prefix,
close the current field and continue after it; otherwise move one character
into the current field.  The fuel is an upper bound on the number of steps
(the string length suffices for the non-empty separators used here). -/
def pySplitGo (sep : List Char) : Nat → List Char → List (List Char)
  | 0, s => [s]
  | fuel + 1, s =>
    if sep.isPrefixOf s then
      match s with
      | [] => [[]]
      | _ :: _ =>
        [] :: pySplitGo sep fuel (s.drop sep.length)
    else
      match s with
      | [] => [[]]
      | c :: rest =>
        match pySplitGo sep fuel rest with
        | [] => [[c]]
        | w :: ws => (c :: w) :: ws

/-- Python `s.split(sep)` for a non-empty separator: `"".split('.') == ['']`
and inner empty fields are kept. -/
def pySplitOn (s sep : String) : List String :=
  (pySplitGo sep.data (s.data.length + 1) s.data).map (fun w => String.mk w)

/-- Python `s.strip()` (ASCII whitespace). -/
def pyStrip (s : String) : String :=
  String.mk (((s.data.dropWhile isPySpace).reverse.dropWhile isPySpace).reverse)

/-- Python `s.startswith(pre)`. -/
def pyStartsWith (s pre : String) : Bool :=
  pre.data.isPrefixOf s.data

/-! ## Platform scorers (`_calculate_twitter_score`, `_calculate_linkedin_score`,
`_calculate_instagram_score` of the source) -/

/-- `_calculate_twitter_score` (scrape.py lines 138–154). -/
def calculate_twitter_score (content : String) : ℚ :=
  let word_count : ℚ := (wordCount content : ℚ)
  -- ideal_length = 250
  let length_score : ℚ := 1 - min (|word_count - 250| / 250) 1
  let has_question := containsSub content "?"
  let has_call_to_action :=
    ["follow", "retweet", "like", "share"].any (fun cta => containsSub (pyLower content) cta)
  let base_score := length_score * (1/2)
    + (if has_question then 1/5 else 0)
    + (if has_call_to_action then 3/10 else 0)
  min base_score 1

/-- The `ideal_lengths.get(content_type, 800)` table of `_calculate_linkedin_score`. -/
def linkedinIdealLength (content_type : String) : ℚ :=
  if content_type = "article" then 1500
  else if content_type = "post" then 800
  else if content_type = "update" then 200
  else 800

/-- `_calculate_linkedin_score` (scrape.py lines 156–181). -/
def calculate_linkedin_score (content : String) (content_type : String) : ℚ :=
  let word_count : ℚ := (wordCount content : ℚ)
  let ideal_length := linkedinIdealLength content_type
  let length_score : ℚ := 1 - min (|word_count - ideal_length| / ideal_length) 1
  let has_paragraphs := (pySplitOn content "\n\n").length > 1
  let has_professional_terms :=
    ["experience", "professional", "industry", "business", "strategy"].any
      (fun term => containsSub (pyLower content) term)
  let base_score := length_score * (2/5)
    + (if has_paragraphs then 3/10 else 0)
    + (if has_professional_terms then 3/10 else 0)
  min base_score 1

/-- `_calculate_instagram_score` (scrape.py lines 183–199).  The fourth
"emoji" is the two-codepoint sequence `U+2764 U+FE0F`, a substring test in
Python just like the single-codepoint ones. -/
def calculate_instagram_score (content : String) : ℚ :=
  let word_count : ℚ := (wordCount content : ℚ)
  -- ideal_length = 150
  let length_score : ℚ := 1 - min (|word_count - 150| / 150) 1
  let has_emoji := ["😀", "🎉", "🔥", "❤️"].any (fun e => containsSub content e)
  let has_story_element := (pySplitOn content "\n\n").length > 1
  let base_score := length_score * (2/5)
    + (if has_emoji then 3/10 else 0)
    + (if has_story_element then 3/10 else 0)
  min base_score 1

/-! ## The shared mutable state of `ContentFlowCore`

`self.vectorizer` is a `TfidfVectorizer(max_features=1000)`; its only
state relevant to the engine is whether it has been fitted and, if so,
on which vocabulary (every fit in the source is on a singleton corpus,
so all idf weights are 1).  `self.content_cache` is a dict from content
id to retained raw text; ids are fresh UUIDs, so insertion appends. -/

structure CoreState where
  vocab : Option (List String)
  content_cache : List (String × String)
deriving DecidableEq, Inhabited

/-- A word character of the default sklearn token pattern `\b\w\w+\b` (ASCII). -/
def isWordChar (c : Char) : Bool :=
  c.isAlphanum || c == '_'

/-- One `foldr` step collecting maximal runs of word characters. -/
def tokenStep (c : Char) (acc : List (List Char)) : List (List Char) :=
  if isWordChar c then
    match acc with
    | [] => [[c]]
    | w :: ws => (c :: w) :: ws
  else [] :: acc

/-- sklearn's default tokenisation: lower-case, then keep maximal runs of
at least two word characters. -/
def sklearnTokens (s : String) : List String :=
  (((pyLower s).data.foldr tokenStep []).filter (fun w => w.length ≥ 2)).map (fun w => String.mk w)

/-- Lexicographic comparison of character lists by code point (the order
Python and numpy use for strings). -/
def strLeAux : List Char → List Char → Bool
  | [], _ => true
  | _ :: _, [] => false
  | c :: cs, d :: ds =>
    if c.toNat < d.toNat then true
    else if d.toNat < c.toNat then false
    else strLeAux cs ds

/-- `a <= b` on strings, by code point. -/
def strLe (a b : String) : Bool :=
  strLeAux a.data b.data

/-- Ascending insertion of a string into a sorted list. -/
def insertStrAsc (x : String) : List String → List String
  | [] => [x]
  | y :: ys => if strLe x y then x :: y :: ys else y :: insertStrAsc x ys

/-- Sort strings ascending (sklearn stores its vocabulary sorted). -/
def sortStrAsc (l : List String) : List String :=
  l.foldr insertStrAsc []

/-- Stable descending insertion by the `Nat` component (Python's stable
`sorted(..., key=lambda x: x[1], reverse=True)`). -/
def insertByCountDesc (x : String × Nat) : List (String × Nat) → List (String × Nat)
  | [] => [x]
  | y :: ys => if y.2 > x.2 then y :: insertByCountDesc x ys else x :: y :: ys

/-- Stable sort, descending by count. -/
def sortByCountDesc (l : List (String × Nat)) : List (String × Nat) :=
  l.foldr insertByCountDesc []

/-- The vocabulary `TfidfVectorizer(max_features=1000).fit([content])`
builds: the distinct tokens sorted alphabetically, capped to the 1000
most frequent terms. -/
def sklearnFitVocab (content : String) : List String :=
  let toks := sklearnTokens content
  let distinct := (sortStrAsc toks).eraseDups
  if distinct.length ≤ 1000 then distinct
  else sortStrAsc (((sortByCountDesc (distinct.map (fun w => (w, toks.count w)))).take 1000).map Prod.fst)

/-- Term-frequency vector of `t` over a fitted vocabulary (idf weights of a
singleton fit are all 1). -/
def tfVec (vocab : List String) (t : String) : List ℚ :=
  vocab.map (fun w => ((sklearnTokens t).count w : ℚ))

/-- Dot product of two rational vectors. -/
def dotQ (v w : List ℚ) : ℚ :=
  (List.zipWith (· * ·) v w).sum

/-- `(new_vector * cached_vector.T)[0][0]` of `_check_originality`: the dot
product of the two l2-normalised tf-idf vectors (sklearn's `normalize`
leaves a zero vector unchanged, so the product is 0 in that case). -/
noncomputable def cosSim (v w : List ℚ) : ℝ :=
  if dotQ v v = 0 ∨ dotQ w w = 0 then 0
  else ((dotQ v w : ℚ) : ℝ) / (Real.sqrt ((dotQ v v : ℚ) : ℝ) * Real.sqrt ((dotQ w w : ℚ) : ℝ))

/-- `_check_originality` (scrape.py lines 397–419).  With an unfitted
vectorizer `transform` raises and the `except` branch substitutes `0.5`;
with a fitted vocabulary no per-item exception occurs. -/
noncomputable def check_originality (st : CoreState) (content : String) : ℝ :=
  if st.content_cache = [] then 1
  else
    match st.vocab with
    | none => 1/2
    | some vocab =>
      let new_vector := tfVec vocab content
      let similarities := st.content_cache.map (fun kv => cosSim new_vector (tfVec vocab kv.2))
      let max_similarity : ℝ :=
        match similarities with
        | [] => 0
        | s :: ss => ss.foldl max s
      max (min (1 - max_similarity) 1) 0

/-- `_calculate_uniqueness` (scrape.py lines 432–434) delegates to the
originality check. -/
noncomputable def calculate_uniqueness (st : CoreState) (content : String) : ℝ :=
  check_originality st content

/-- `_check_timeliness` (scrape.py lines 436–439); `str(datetime.now().year)`
is passed in as `current_year`. -/
def check_timeliness (current_year : String) (content : String) : ℚ :=
  if containsSub content current_year then 1 else 1/2

/-- `_detect_emotional_content` (scrape.py lines 327–345). -/
def detect_emotional_content (content : String) : ℚ :=
  let cl := pyLower content
  let high := ((["amazing", "incredible", "awesome", "fantastic"].filter (fun w => containsSub cl w)).length : ℚ)
  let medium := ((["good", "great", "nice", "cool"].filter (fun w => containsSub cl w)).length : ℚ)
  let low := ((["okay", "fine", "normal", "average"].filter (fun w => containsSub cl w)).length : ℚ)
  let total_score := high * 1 + medium * (3/5) + low * (3/10)
  let max_possible : ℚ := (wordCount content : ℚ) / 20
  if max_possible > 0 then min (total_score / max_possible) 1 else 0

/-- `_calculate_readability` (scrape.py lines 347–364). -/
def calculate_readability (content : String) : ℚ :=
  let words := pyWords content
  let sentences := pySplitOn content "."
  if sentences = [] ∨ words = [] then 0
  else
    let avg_words_per_sentence : ℚ := (words.length : ℚ) / (sentences.length : ℚ)
    let avg_word_length : ℚ := (((words.map String.length).sum : ℕ) : ℚ) / (words.length : ℚ)
    let readability := 1 - ((avg_words_per_sentence - 15) / 30 + (avg_word_length - 5) / 10) / 2
    max (min readability 1) 0

/-- `_analyze_structure` (scrape.py lines 366–383). -/
def analyze_structure (content : String) : ℚ :=
  let paragraphs := pySplitOn content "\n\n"
  if paragraphs = [] then 0
  else
    let first := paragraphs.head?.getD ""
    let last := paragraphs.getLast?.getD ""
    let avg_para_length : ℚ := (((paragraphs.map wordCount).sum : ℕ) : ℚ) / (paragraphs.length : ℚ)
    let structure_score :=
      (if wordCount first ≥ 20 then (3/10 : ℚ) else 0)
      + (if wordCount last ≥ 20 then (3/10 : ℚ) else 0)
      + (2/5) * (1 - |avg_para_length - 75| / 75)
    max (min structure_score 1) 0

/-- The "list-like line" check shared by `_predict_engagement` and
`_calculate_shareability`. -/
def hasListLine (content : String) : Bool :=
  (pySplitOn content "\n").any (fun line =>
    pyStartsWith (pyStrip line) "-" || pyStartsWith (pyStrip line) "*" || pyStartsWith (pyStrip line) "1.")

/-- `_predict_engagement` (scrape.py lines 385–395). -/
def predict_engagement (content : String) : ℚ :=
  let has_question : ℚ := if containsSub content "?" then 1 else 0
  let has_numbers : ℚ := if content.data.any Char.isDigit then 1 else 0
  let has_quotes : ℚ := if containsSub content "\"" || containsSub content "\x27" then 1 else 0
  let has_lists : ℚ := if hasListLine content then 1 else 0
  let has_call_to_action : ℚ :=
    if ["follow", "share", "comment", "like"].any (fun cta => containsSub (pyLower content) cta) then 1 else 0
  let engagement_score := (has_question + has_numbers + has_quotes + has_lists + has_call_to_action) / 5
  min engagement_score 1

/-- `_calculate_shareability` (scrape.py lines 421–430). -/
def calculate_shareability (content : String) : ℚ :=
  let s1 : ℚ := if containsSub content "?" then 3/10 else 0
  let s2 : ℚ := if ["share", "retweet"].any (fun cta => containsSub (pyLower content) cta) then 3/10 else 0
  let s3 : ℚ := if hasListLine content then 1/5 else 0
  min (s1 + s2 + s3) 1

/-- `_calculate_virality_potential` (scrape.py lines 201–213); weights
emotion 0.3, shareability 0.3, uniqueness 0.2, timeliness 0.2, clamp 1. -/
noncomputable def calculate_virality_potential (st : CoreState) (current_year : String) (content : String) : ℝ :=
  let emotion : ℝ := ((detect_emotional_content content : ℚ) : ℝ)
  let shareability : ℝ := ((calculate_shareability content : ℚ) : ℝ)
  let uniqueness : ℝ := calculate_uniqueness st content
  let timeliness : ℝ := ((check_timeliness current_year content : ℚ) : ℝ)
  min ((3/10) * emotion + (3/10) * shareability + (1/5) * uniqueness + (1/5) * timeliness) 1

/-- `_calculate_quality_score` (scrape.py lines 290–307); weights
readability 0.3, structure 0.2, engagement 0.3, originality 0.2, clamp 1. -/
noncomputable def calculate_quality_score (st : CoreState) (content : String) : ℝ :=
  let readability : ℝ := ((calculate_readability content : ℚ) : ℝ)
  let structure_score : ℝ := ((analyze_structure content : ℚ) : ℝ)
  let engagement : ℝ := ((predict_engagement content : ℚ) : ℝ)
  let originality : ℝ := check_originality st content
  min ((3/10) * readability + (1/5) * structure_score + (3/10) * engagement + (1/5) * originality) 1

/-! ## Category classifier, hashtags, posting times, audience fit -/

/-- The fixed category → keyword table of `_determine_category`, in
declaration (= Python dict iteration) order. -/
def categoryKeywords : List (String × List String) :=
  [("technology", ["tech", "software", "digital", "ai", "innovation"]),
   ("business", ["business", "strategy", "marketing", "finance"]),
   ("lifestyle", ["lifestyle", "health", "wellness", "travel"]),
   ("education", ["education", "learning", "study", "academic"])]

/-- `sum(1 for keyword in keywords if keyword in content_lower)`: the number
of keywords of the set occurring (as substrings) in the lower-cased text. -/
def categoryCount (content_lower : String) (keywords : List String) : Nat :=
  (keywords.filter (fun k => containsSub content_lower k)).length

/-- Python's `max(items, key=lambda x: x[1])`: the first item with maximal
key, scanning left to right and replacing only on strictly greater keys. -/
def pyMaxBySnd (x : String × Nat) : List (String × Nat) → String × Nat
  | [] => x
  | y :: ys => pyMaxBySnd (if y.2 > x.2 then y else x) ys

/-- `_determine_category` (scrape.py lines 309–325). -/
def determine_category (content : String) : String :=
  let content_lower := pyLower content
  let category_scores := categoryKeywords.map (fun ck => (ck.1, categoryCount content_lower ck.2))
  match category_scores with
  | [] => "general"
  | c :: cs =>
    let max_category := pyMaxBySnd c cs
    if max_category.2 > 0 then max_category.1 else "general"

/-- The `type_hashtags` table of `_generate_hashtags` (`.get(content_type, [])`). -/
def typeHashtags (content_type : String) : List String :=
  if content_type = "article" then ["#article", "#blog", "#reading"]
  else if content_type = "social_post" then ["#social", "#trending", "#viral"]
  else if content_type = "news" then ["#news", "#update", "#latest"]
  else []

/-- `_generate_hashtags` (scrape.py lines 242–263).  `fit_transform` refits
`self.vectorizer` on `[content]`, which is the state change recorded in the
returned `CoreState`; it raises `ValueError` when the tokenised content is
empty ("empty vocabulary").  The tf-idf scores of a singleton fit are the
l2-normalised term counts; since the normalising constant is one positive
scalar for the whole vector, sorting by tf-idf score descending is sorting
by raw term count descending (ties kept in alphabetical feature order by
the stable sort, as in Python). -/
def generate_hashtags (st : CoreState) (content : String) (content_type : String) :
    Except String (CoreState × List String) :=
  let vocab := sklearnFitVocab content
  if vocab = [] then .error "empty vocabulary"
  else
    let toks := sklearnTokens content
    let scores := vocab.map (fun w => (w, toks.count w))
    let sorted_scores := sortByCountDesc scores
    let hashtags := (sorted_scores.take 5).map (fun p => "#" ++ p.1)
    let all := hashtags ++ (typeHashtags content_type).take 2
    .ok ({ vocab := some vocab, content_cache := st.content_cache }, all.take 7)

/-- The `base_times` table of `_get_optimal_posting_times`:
`(platform, weekday window, weekend window)`. -/
def baseTimes : List (String × String × String) :=
  [("twitter", "12:00-15:00", "9:00-11:00"),
   ("linkedin", "8:00-10:00", "10:00-11:00"),
   ("instagram", "11:00-13:00", "9:00-11:00")]

/-- `_get_optimal_posting_times` (scrape.py lines 265–288); the day of week
is supplied as `is_weekend`.  (The Python dict comprehension would collapse
duplicate platform entries; the engine's claims never depend on that.) -/
def get_optimal_posting_times (platforms : List String) (is_weekend : Bool) : List (String × String) :=
  platforms.filterMap (fun p =>
    (baseTimes.find? (fun bt => bt.1 == p)).map
      (fun bt => (p, if is_weekend then bt.2.2 else bt.2.1)))

/-- The fixed `platform_weights` table of `_calculate_audience_fit`, with
the `.get(platform, 0.33)` default. -/
def platformWeight (platform : String) : ℚ :=
  if platform = "twitter" then 35/100
  else if platform = "linkedin" then 35/100
  else if platform = "instagram" then 3/10
  else 33/100

/-- `_calculate_audience_fit` (scrape.py lines 215–240).  Scores are
collected only for recognised platforms (the linkedin score always with
content type `"post"`); the weights are then applied by `zip`-ping the
collected scores against the full requested list. -/
def calculate_audience_fit (content : String) (platforms : List String) : ℚ :=
  let scores := platforms.filterMap (fun platform =>
    if platform = "twitter" then some (calculate_twitter_score content)
    else if platform = "linkedin" then some (calculate_linkedin_score content "post")
    else if platform = "instagram" then some (calculate_instagram_score content)
    else none)
  if scores = [] then 1/2
  else
    let weighted_scores := List.zipWith (fun score platform => score * platformWeight platform) scores platforms
    weighted_scores.sum / (weighted_scores.length : ℚ)

/-! ## The assembled metrics record and the metrics-generation operation -/

/-- The `ContentMetrics` pydantic model (scrape.py lines 24–31); the two
similarity-based scores are real-valued in the embedding. -/
structure ContentMetrics where
  engagement_score : ℚ
  virality_potential : ℝ
  audience_fit : ℚ
  optimal_posting_times : List (String × String)
  hashtag_recommendations : List String
  content_quality_score : ℝ
deriving Inhabited

/-- `_generate_content_metrics` (scrape.py lines 101–136).  The statistics
of lines 109–111 (`word_count`, `sentences`, `avg_sentence_length`) are
computed but never used and are omitted.  `engagement_score` is
`np.mean` over the values of the `platform_scores` dict — always the three
fixed platforms, regardless of `platforms`.  The hashtag call of line 127
runs (and refits the vectorizer) before the constructor arguments of lines
129–136 are evaluated, so the similarity-based scores see the updated
state `st'`. -/
noncomputable def generate_content_metrics (st : CoreState) (content : String)
    (platforms : List String) (content_type : String)
    (current_year : String) (is_weekend : Bool) :
    Except String (CoreState × ContentMetrics) :=
  let platform_scores : List ℚ :=
    [calculate_twitter_score content,
     calculate_linkedin_score content content_type,
     calculate_instagram_score content]
  let engagement_score := platform_scores.sum / 3
  let posting_times := get_optimal_posting_times platforms is_weekend
  match generate_hashtags st content content_type with
  | .error e => .error e
  | .ok (st', hashtags) =>
    .ok (st',
      { engagement_score := engagement_score
        virality_potential := calculate_virality_potential st' current_year content
        audience_fit := calculate_audience_fit content platforms
        optimal_posting_times := posting_times
        hashtag_recommendations := hashtags
        content_quality_score := calculate_quality_score st' content })

/-- The orchestrator's explicit cache registration
(`self.content_cache[content_item.id] = content_item.content`,
scrape.py line 97); the id is a fresh UUID, so the dict insertion appends. -/
def cacheAdd (st : CoreState) (id text : String) : CoreState :=
  { vocab := st.vocab, content_cache := st.content_cache ++ [(id, text)] }

/-! ## Specification-side definitions

These follow the wording of `spec.md` (not the source) and are compared
against the source-embedded definitions in the refinement theorems. -/

/-- The short-form scorer exactly as §4.3 of the spec words it:
`length_score * 0.5` with `length_score = 1 - min(|word_count - 250|/250, 1)`,
`+0.2` for a question mark, `+0.3` for a call-to-action keyword, clamp to 1. -/
def twitterScoreSpec (content : String) : ℚ :=
  let length_score : ℚ := 1 - min (|(wordCount content : ℚ) - 250| / 250) 1
  min (length_score * (1/2)
    + (if containsSub content "?" then 1/5 else 0)
    + (if ["follow", "retweet", "like", "share"].any (fun cta => containsSub (pyLower content) cta)
       then 3/10 else 0)) 1

/-- The category classifier exactly as §4.5 of the spec words it: count
keywords per category, return the category with the highest count, ties
broken by first-declared category, fallback "general" when all counts
are zero. -/
def classifySpec (content : String) : String :=
  let cl := pyLower content
  let k1 := categoryCount cl ["tech", "software", "digital", "ai", "innovation"]
  let k2 := categoryCount cl ["business", "strategy", "marketing", "finance"]
  let k3 := categoryCount cl ["lifestyle", "health", "wellness", "travel"]
  let k4 := categoryCount cl ["education", "learning", "study", "academic"]
  let m := max k1 (max k2 (max k3 k4))
  if m = 0 then "general"
  else if k1 = m then "technology"
  else if k2 = m then "business"
  else if k3 = m then "lifestyle"
  else "education"

/-- The audience-fit blend as the spec words it for recognised platforms:
per-platform score times fixed platform weight, renormalised by the number
of requested platforms. -/
def audienceFitSpecBlend (content : String) (platforms : List String) : ℚ :=
  (platforms.map (fun p =>
    (if p = "twitter" then calculate_twitter_score content
     else if p = "linkedin" then calculate_linkedin_score content "post"
     else calculate_instagram_score content) * platformWeight p)).sum
  / (platforms.length : ℚ)

/-! ## Claim C9 — the short-form (Twitter-like) platform score -/

-- Equality of `Except` results (with computable payloads) is decidable.
deriving instance DecidableEq for Except

/-- Claim C9: the short-form platform score is
`length_score * 0.5 (+0.2 question) (+0.3 call-to-action)` clamped to 1,
with `length_score = 1 - min(|word_count - 250|/250, 1)`; on
"Is DIY woodworking fun? Follow us!" (6 words) both bonuses fire and the
score is `(1 - 244/250) * 0.5 + 0.2 + 0.3 = 0.512`, under the clamp. -/
theorem claim_C9_twitter_score_formula :
    (∀ content : String, calculate_twitter_score content = twitterScoreSpec content) ∧
    containsSub "Is DIY woodworking fun? Follow us!" "?" = true ∧
    (["follow", "retweet", "like", "share"].any
      (fun cta => containsSub (pyLower "Is DIY woodworking fun? Follow us!") cta)) = true ∧
    wordCount "Is DIY woodworking fun? Follow us!" = 6 ∧
    calculate_twitter_score "Is DIY woodworking fun? Follow us!" = 64/125 ∧
    (64 : ℚ)/125 = (1 - min (|(6 : ℚ) - 250| / 250) 1) * (1/2) + 1/5 + 3/10 := by
  have h1 : wordCount "Is DIY woodworking fun? Follow us!" = 6 := by decide
  have h2 : containsSub "Is DIY woodworking fun? Follow us!" "?" = true := by decide
  have h3 : (["follow", "retweet", "like", "share"].any
      (fun cta => containsSub (pyLower "Is DIY woodworking fun? Follow us!") cta)) = true := by decide
  refine ⟨fun content => rfl, h2, h3, h1, ?_, by norm_num [min_def, abs]⟩
  simp only [calculate_twitter_score, h1, h2, h3]
  norm_num [min_def, abs]

/-! ## Claim C8 — the category classifier -/

/-- Python's first-maximum selection over the four category counts agrees
with "first declared category attaining the maximum count". -/
theorem pyMaxSelect_eq (k1 k2 k3 k4 : Nat) :
    (if (pyMaxBySnd ("technology", k1) [("business", k2), ("lifestyle", k3), ("education", k4)]).2 > 0
     then (pyMaxBySnd ("technology", k1) [("business", k2), ("lifestyle", k3), ("education", k4)]).1
     else "general")
    = (if max k1 (max k2 (max k3 k4)) = 0 then "general"
       else if k1 = max k1 (max k2 (max k3 k4)) then "technology"
       else if k2 = max k1 (max k2 (max k3 k4)) then "business"
       else if k3 = max k1 (max k2 (max k3 k4)) then "lifestyle"
       else "education") := by
  simp only [pyMaxBySnd]
  split_ifs <;> first | rfl | omega

/-- Claim C8: the classifier lower-cases, counts present keywords per
category, picks the highest count with first-declared tie-breaking and
falls back to "general" on all-zero counts; "strategy strategy strategy"
classifies as "business" and keyword-free text as "general". -/
theorem claim_C8_category_classifier :
    (∀ content : String, determine_category content = classifySpec content) ∧
    determine_category "strategy strategy strategy" = "business" ∧
    determine_category "zzz qqq" = "general" := by
  refine ⟨fun content => ?_, by decide, by decide⟩
  show (let category_scores := categoryKeywords.map
          (fun ck => (ck.1, categoryCount (pyLower content) ck.2));
        match category_scores with
        | [] => "general"
        | c :: cs =>
          let max_category := pyMaxBySnd c cs
          if max_category.2 > 0 then max_category.1 else "general") = classifySpec content
  simp only [categoryKeywords, List.map_cons, List.map_nil]
  exact pyMaxSelect_eq _ _ _ _

/-! ## Claim C10 — audience fit is independent of the content type -/

/-- Claim C10: inside the audience-fit computation the long-form platform
is always scored with the fixed content type "post"
(`_calculate_linkedin_score(content, "post")`, scrape.py line 228), so two
analysis requests differing only in `content_type` produce identical
`audience_fit` values (including on the failure branch, which does not
depend on the content type either). -/
theorem claim_C10_audience_fit_content_type_independent :
    ∀ (st : CoreState) (content : String) (platforms : List String)
      (current_year : String) (is_weekend : Bool) (ct1 ct2 : String),
    (generate_content_metrics st content platforms ct1 current_year is_weekend).toOption.map
        (fun p => p.2.audience_fit)
      = (generate_content_metrics st content platforms ct2 current_year is_weekend).toOption.map
          (fun p => p.2.audience_fit) := by
  intro st content platforms current_year is_weekend ct1 ct2
  unfold generate_content_metrics generate_hashtags
  by_cases h : sklearnFitVocab content = [] <;>
    simp [h, Except.toOption]

/-! ## Claim C7 — adding a document can only raise its similarity -/

/-- The clamp `max(min(x, 1), 0)` never exceeds 1. -/
theorem clamp01_le_one (x : ℝ) : max (min x 1) 0 ≤ 1 :=
  max_le (min_le_right _ _) zero_le_one

/-- The clamp of `1 - x` is antitone in `x`. -/
theorem clamp_one_sub_anti {a b : ℝ} (h : a ≤ b) :
    max (min (1 - b) 1) 0 ≤ max (min (1 - a) 1) 0 :=
  max_le_max (min_le_min (by linarith) le_rfl) le_rfl

/-- A running maximum over a longer list dominates the one over its prefix. -/
theorem foldl_max_append_le (a x : ℝ) (l : List ℝ) :
    l.foldl max a ≤ (l ++ [x]).foldl max a := by
  rw [List.foldl_append, List.foldl_cons, List.foldl_nil]
  exact le_max_left _ _

/-- Claim C7: the similarity of a document evaluated before the
orchestrator's `add` is taken against the cache excluding it; a fresh
evaluation after the `add` yields a similarity at least as large —
equivalently, the originality returned by `_check_originality` after
appending the `(id, text)` pair is at most the originality before
(`originality = clamp(1 - max_similarity)`, and the appended document
contributes one more candidate to the maximum). -/
theorem claim_C7_similarity_monotone_under_add :
    ∀ (vocab : Option (List String)) (cache : List (String × String)) (id text : String),
    check_originality ⟨vocab, cache ++ [(id, text)]⟩ text
      ≤ check_originality ⟨vocab, cache⟩ text := by
  intro vocab cache id text
  rcases cache with _ | ⟨c, cs⟩
  · rcases vocab with _ | V
    · show check_originality ⟨none, [(id, text)]⟩ text ≤ check_originality ⟨none, []⟩ text
      simp only [check_originality, List.cons_ne_nil, if_false, if_pos rfl]
      norm_num
    · show check_originality ⟨some V, [(id, text)]⟩ text ≤ check_originality ⟨some V, []⟩ text
      simp only [check_originality, List.cons_ne_nil, if_false, if_pos rfl]
      exact le_trans (clamp01_le_one _) (by norm_num)
  · rcases vocab with _ | V
    · show check_originality ⟨none, (c :: cs) ++ [(id, text)]⟩ text
          ≤ check_originality ⟨none, c :: cs⟩ text
      simp [check_originality]
    · show check_originality ⟨some V, (c :: cs) ++ [(id, text)]⟩ text
          ≤ check_originality ⟨some V, c :: cs⟩ text
      simp only [check_originality, List.cons_append, List.cons_ne_nil, if_false,
        List.map_cons, List.map_append, List.map_nil]
      exact clamp_one_sub_anti (foldl_max_append_le _ _ _)

/-! ## Claim C5 — sub-scores on empty text -/

/-- Claim C5 is false as stated: on empty text the timeliness sub-score is
0.5, not 0.0 (the current year, e.g. "2026", is not a substring of ""),
and the originality sub-score on an empty index is 1.0, not 0.0. -/
theorem claim_C5_counterexample :
    check_timeliness "2026" "" = 1/2 ∧ ((1 : ℚ)/2) ≠ 0 ∧
    check_originality ⟨none, []⟩ "" = 1 ∧ ((1 : ℝ)) ≠ 0 := by
  have hc : containsSub "" "2026" = false := by decide
  refine ⟨by simp [check_timeliness, hc], by norm_num, ?_, one_ne_zero⟩
  simp [check_originality]

/-- Claim C5 amended: on empty text the emotional-tone, shareability,
readability, structure and predicted-engagement sub-scores all degrade to
0.0 with no division by zero; the timeliness sub-score degrades to 0.5
(for any non-empty current-year string) and the uniqueness/originality
sub-score to 1.0 on an empty index. -/
theorem claim_C5_amended :
    ∀ (current_year : String) (vocab : Option (List String)),
    current_year ≠ "" →
    detect_emotional_content "" = 0 ∧
    calculate_shareability "" = 0 ∧
    calculate_readability "" = 0 ∧
    analyze_structure "" = 0 ∧
    predict_engagement "" = 0 ∧
    check_timeliness current_year "" = 1/2 ∧
    check_originality ⟨vocab, []⟩ "" = 1 := by
  intro current_year vocab hy
  have hdata : current_year.data ≠ [] := by
    intro h
    apply hy
    cases current_year
    simp_all
  have hc : containsSub "" current_year = false := by
    show hasSubAux current_year.data ([] : List Char) = false
    cases h : current_year.data with
    | nil => exact absurd h hdata
    | cons a l => simp [hasSubAux, List.isEmpty]
  refine ⟨?_, ?_, ?_, ?_, ?_, by simp [check_timeliness, hc], by simp [check_originality]⟩
  · have hw : wordCount "" = 0 := by decide
    have he1 : (["amazing", "incredible", "awesome", "fantastic"].filter
        (fun w => containsSub (pyLower "") w)) = [] := by decide
    have he2 : (["good", "great", "nice", "cool"].filter
        (fun w => containsSub (pyLower "") w)) = [] := by decide
    have he3 : (["okay", "fine", "normal", "average"].filter
        (fun w => containsSub (pyLower "") w)) = [] := by decide
    simp [detect_emotional_content, hw, he1, he2, he3]
  · have h1 : containsSub "" "?" = false := by decide
    have h2 : (["share", "retweet"].any (fun cta => containsSub (pyLower "") cta)) = false := by decide
    have h3 : hasListLine "" = false := by decide
    simp [calculate_shareability, h1, h2, h3]
  · have hw : pyWords "" = [] := by decide
    simp [calculate_readability, hw]
  · have hp : pySplitOn "" "\n\n" = [""] := by decide
    have hw : wordCount "" = 0 := by decide
    simp [analyze_structure, hp, hw]
  · have h1 : containsSub "" "?" = false := by decide
    have h2 : ("".data.any Char.isDigit) = false := by decide
    have h3 : containsSub "" "\"" = false := by decide
    have h4 : containsSub "" "\x27" = false := by decide
    have h5 : hasListLine "" = false := by decide
    have h6 : (["follow", "share", "comment", "like"].any
        (fun cta => containsSub (pyLower "") cta)) = false := by decide
    simp [predict_engagement, h1, h2, h3, h4, h5, h6]

/-- Witness for the amended C5 at the concrete year "2026" and a fresh
(unfitted, empty-cache) state. -/
theorem claim_C5_witness :
    ("2026" : String) ≠ "" ∧
    (detect_emotional_content "" = 0 ∧
     calculate_shareability "" = 0 ∧
     calculate_readability "" = 0 ∧
     analyze_structure "" = 0 ∧
     predict_engagement "" = 0 ∧
     check_timeliness "2026" "" = 1/2 ∧
     check_originality ⟨none, []⟩ "" = 1) :=
  ⟨by decide, claim_C5_amended "2026" none (by decide)⟩

/-! ## Claim C3 — hashtag generation and the lexical model -/

/-- Claim C3 is false as stated: hashtag generation calls
`self.vectorizer.fit_transform([content])`, refitting the shared
vectorizer.  From a fresh state, generating hashtags for "hello world"
leaves the vectorizer fitted on \x7b"hello", "world"\x7d, a state different
from the fresh one — so a similarity computation performed after hashtag
generation does not see the same index state as before it. -/
theorem claim_C3_counterexample :
    (generate_hashtags ⟨none, []⟩ "hello world" "post").toOption.map Prod.fst
      = some ⟨some ["hello", "world"], []⟩ ∧
    (⟨some ["hello", "world"], []⟩ : CoreState) ≠ ⟨none, []⟩ := by
  exact ⟨by decide, by decide⟩

/-- Claim C3 amended: hashtag generation never touches the document cache,
but it does mutate the shared lexical model: after a successful call the
vectorizer is fitted on the analyzed text's vocabulary.  The cache itself
is mutated only by the orchestrator's explicit add (`cacheAdd`), which
appends the (id, text) pair and leaves the vectorizer alone. -/
theorem claim_C3_amended :
    ∀ (st : CoreState) (content content_type : String) (st' : CoreState) (tags : List String),
    generate_hashtags st content content_type = .ok (st', tags) →
    st'.content_cache = st.content_cache ∧
    st'.vocab = some (sklearnFitVocab content) ∧
    ∀ id text : String,
      (cacheAdd st id text).vocab = st.vocab ∧
      (cacheAdd st id text).content_cache = st.content_cache ++ [(id, text)] := by
  intro st content content_type st' tags h
  unfold generate_hashtags at h
  by_cases hv : sklearnFitVocab content = []
  · simp [hv] at h
  · rw [if_neg hv] at h
    simp only [Except.ok.injEq, Prod.mk.injEq] at h
    obtain ⟨hst, -⟩ := h
    subst hst
    exact ⟨rfl, rfl, fun id text => ⟨rfl, rfl⟩⟩

/-- Witness for the amended C3: from the fresh state, hashtag generation on
"hello world" keeps the (empty) cache and fits the vocabulary. -/
theorem claim_C3_witness :
    (⟨some ["hello", "world"], []⟩ : CoreState).content_cache
      = (⟨none, []⟩ : CoreState).content_cache ∧
    (⟨some ["hello", "world"], []⟩ : CoreState).vocab = some (sklearnFitVocab "hello world") ∧
    ∀ id text : String,
      (cacheAdd ⟨none, []⟩ id text).vocab = (⟨none, []⟩ : CoreState).vocab ∧
      (cacheAdd ⟨none, []⟩ id text).content_cache
        = (⟨none, []⟩ : CoreState).content_cache ++ [(id, text)] :=
  claim_C3_amended ⟨none, []⟩ "hello world" "post" ⟨some ["hello", "world"], []⟩
    ["#hello", "#world"] (by decide)

/-! ## Claim C4 — input validation and failure behaviour of the analysis -/

/-- The success flag of an `Except` result. -/
def isOkB {ε α : Type} : Except ε α → Bool
  | .ok _ => true
  | .error _ => false

/-- Claim C4 is false as stated: with an empty platform list (and valid
text) the metrics operation returns an assembled record instead of a typed
failure, and the non-empty text "a" (which has no sklearn token of two or
more word characters) makes it fail rather than degrade. -/
theorem claim_C4_counterexample :
    isOkB (generate_content_metrics ⟨none, []⟩ "hello world" [] "post" "2026" false) = true ∧
    generate_content_metrics ⟨none, []⟩ "a" ["twitter"] "post" "2026" false
      = .error "empty vocabulary" := by
  constructor
  · have hgen : generate_hashtags (⟨none, []⟩ : CoreState) "hello world" "post"
        = .ok (⟨some ["hello", "world"], []⟩, ["#hello", "#world"]) := by decide
    simp [generate_content_metrics, hgen, isOkB]
  · have hv : sklearnFitVocab "a" = [] := by decide
    simp [generate_content_metrics, generate_hashtags, hv]

/-- Claim C4 amended: the operation performs no input validation at all.
It fails exactly when the text has no sklearn token — the vectorizer's
"empty vocabulary" error escaping from hashtag generation — and otherwise
returns an assembled record, for every platform list (including the empty
one) and every content type. -/
theorem claim_C4_amended :
    ∀ (st : CoreState) (content : String) (platforms : List String)
      (content_type current_year : String) (is_weekend : Bool),
    (sklearnFitVocab content = [] →
      generate_content_metrics st content platforms content_type current_year is_weekend
        = .error "empty vocabulary") ∧
    (sklearnFitVocab content ≠ [] →
      isOkB (generate_content_metrics st content platforms content_type current_year is_weekend)
        = true) := by
  intro st content platforms content_type current_year is_weekend
  constructor
  · intro h
    simp [generate_content_metrics, generate_hashtags, h]
  · intro h
    simp [generate_content_metrics, generate_hashtags, h, isOkB]

/-- Witness for the amended C4: empty text fails with the vectorizer
error; "hello world" succeeds even with platforms present. -/
theorem claim_C4_witness :
    generate_content_metrics ⟨none, []⟩ "" ["twitter"] "post" "2026" false
      = .error "empty vocabulary" ∧
    isOkB (generate_content_metrics ⟨none, []⟩ "hello world" ["twitter"] "post" "2026" false)
      = true :=
  ⟨(claim_C4_amended ⟨none, []⟩ "" ["twitter"] "post" "2026" false).1 (by decide),
   (claim_C4_amended ⟨none, []⟩ "hello world" ["twitter"] "post" "2026" false).2 (by decide)⟩

/-! ## Claim C1 — what the engagement score actually averages -/

/-- Claim C1 is false as stated: requesting only "twitter" on
"Is DIY woodworking fun? Follow us!" yields
`engagement_score = 0.177` — the mean over all three fixed platforms
(`(0.512 + 0.003 + 0.016)/3`) — while the mean over exactly the requested
platforms would be the twitter score `0.512`. -/
theorem claim_C1_counterexample :
    (generate_content_metrics ⟨none, []⟩ "Is DIY woodworking fun? Follow us!"
        ["twitter"] "post" "2026" false).toOption.map (fun p => p.2.engagement_score)
      = some (177/1000) ∧
    calculate_twitter_score "Is DIY woodworking fun? Follow us!" = 64/125 ∧
    ((177 : ℚ)/1000) ≠ 64/125 := by
  have hw : wordCount "Is DIY woodworking fun? Follow us!" = 6 := by decide
  have hq : containsSub "Is DIY woodworking fun? Follow us!" "?" = true := by decide
  have hcta : (["follow", "retweet", "like", "share"].any
      (fun cta => containsSub (pyLower "Is DIY woodworking fun? Follow us!") cta)) = true := by
    decide
  have htw : calculate_twitter_score "Is DIY woodworking fun? Follow us!" = 64/125 := by
    simp only [calculate_twitter_score, hw, hq, hcta]
    norm_num [min_def, abs]
  have hpar : (pySplitOn "Is DIY woodworking fun? Follow us!" "\n\n").length = 1 := by decide
  have hprof : (["experience", "professional", "industry", "business", "strategy"].any
      (fun term => containsSub (pyLower "Is DIY woodworking fun? Follow us!") term)) = false := by
    decide
  have hil : linkedinIdealLength "post" = 800 := by simp [linkedinIdealLength]
  have hln : calculate_linkedin_score "Is DIY woodworking fun? Follow us!" "post" = 3/1000 := by
    simp only [calculate_linkedin_score, hil, hw, hpar, hprof]
    norm_num [min_def, abs]
  have hemoji : (["😀", "🎉", "🔥", "❤️"].any
      (fun e => containsSub "Is DIY woodworking fun? Follow us!" e)) = false := by decide
  have hig : calculate_instagram_score "Is DIY woodworking fun? Follow us!" = 2/125 := by
    simp only [calculate_instagram_score, hw, hemoji, hpar]
    norm_num [min_def, abs]
  have hgen : generate_hashtags (⟨none, []⟩ : CoreState) "Is DIY woodworking fun? Follow us!" "post"
      = .ok (⟨some ["diy", "follow", "fun", "is", "us", "woodworking"], []⟩,
             ["#diy", "#follow", "#fun", "#is", "#us"]) := by decide
  refine ⟨?_, htw, by norm_num⟩
  simp only [generate_content_metrics, hgen, Except.toOption, Option.map]
  simp only [List.sum_cons, List.sum_nil, htw, hln, hig, Option.some.injEq]
  norm_num

/-- Claim C1 amended: `engagement_score` is always the arithmetic mean of
the three fixed platform scores — twitter, linkedin (scored with the
request's content type) and instagram — regardless of which platforms were
requested; the 0.0 no-valid-platform fallback does not exist. -/
theorem claim_C1_amended :
    ∀ (st : CoreState) (content : String) (platforms : List String)
      (content_type current_year : String) (is_weekend : Bool)
      (st' : CoreState) (m : ContentMetrics),
    generate_content_metrics st content platforms content_type current_year is_weekend
      = .ok (st', m) →
    m.engagement_score
      = (calculate_twitter_score content
          + calculate_linkedin_score content content_type
          + calculate_instagram_score content) / 3 := by
  intro st content platforms content_type current_year is_weekend st' m h
  unfold generate_content_metrics at h
  cases hg : generate_hashtags st content content_type with
  | error e => rw [hg] at h; exact absurd h (by simp)
  | ok p =>
    rw [hg] at h
    simp only [Except.ok.injEq, Prod.mk.injEq] at h
    obtain ⟨-, hm⟩ := h
    subst hm
    simp [List.sum_cons, List.sum_nil]
    ring

/-- The sample run used by the C1 witness: a fresh state, text
"hello world", an empty platform list. -/
noncomputable def c1run : Except String (CoreState × ContentMetrics) :=
  generate_content_metrics ⟨none, []⟩ "hello world" [] "post" "2026" false

/-- The state produced by the C1 sample run. -/
noncomputable def c1state : CoreState :=
  (c1run.toOption.map Prod.fst).getD default

/-- The metrics record produced by the C1 sample run. -/
noncomputable def c1metrics : ContentMetrics :=
  (c1run.toOption.map Prod.snd).getD default

/-- Witness for the amended C1: even with an empty requested-platform list
the engagement score is the mean of the three fixed platform scores. -/
theorem claim_C1_witness :
    c1metrics.engagement_score
      = (calculate_twitter_score "hello world"
          + calculate_linkedin_score "hello world" "post"
          + calculate_instagram_score "hello world") / 3 :=
  claim_C1_amended ⟨none, []⟩ "hello world" [] "post" "2026" false c1state c1metrics
    (by with_unfolding_all rfl)

/-! ## Claim C2 — the audience-fit blend -/

/-- Claim C2 is false as stated: requesting the single unrecognised
platform "foo" returns the hard-coded fallback 0.5, which is not the
0.33-weighted contribution of any fitness score in [0,1] renormalised by
the one requested platform (such a blend is at most 0.33). -/
theorem claim_C2_counterexample :
    calculate_audience_fit "hello" ["foo"] = 1/2 ∧
    ¬ ∃ s : ℚ, 0 ≤ s ∧ s ≤ 1 ∧ s * (33/100) / 1 = calculate_audience_fit "hello" ["foo"] := by
  have h : calculate_audience_fit "hello" ["foo"] = 1/2 := by
    simp [calculate_audience_fit]
  refine ⟨h, ?_⟩
  rintro ⟨s, h0, h1, he⟩
  rw [h] at he
  norm_num at he
  linarith

/-- For a list of recognised platforms the score-collection `filterMap` of
`_calculate_audience_fit` is the plain `map` of the per-platform scorer. -/
theorem audience_scores_eq_map (content : String) :
    ∀ platforms : List String,
    (∀ p ∈ platforms, p = "twitter" ∨ p = "linkedin" ∨ p = "instagram") →
    platforms.filterMap (fun platform =>
      if platform = "twitter" then some (calculate_twitter_score content)
      else if platform = "linkedin" then some (calculate_linkedin_score content "post")
      else if platform = "instagram" then some (calculate_instagram_score content)
      else none)
    = platforms.map (fun p =>
        if p = "twitter" then calculate_twitter_score content
        else if p = "linkedin" then calculate_linkedin_score content "post"
        else calculate_instagram_score content) := by
  intro platforms h
  induction platforms with
  | nil => rfl
  | cons a l ih =>
    have ha := h a (List.mem_cons_self a l)
    have hl : ∀ p ∈ l, p = "twitter" ∨ p = "linkedin" ∨ p = "instagram" :=
      fun p hp => h p (List.mem_cons_of_mem a hp)
    rcases ha with h1 | h1 | h1 <;> subst h1 <;>
      simp [List.filterMap_cons, ih hl]

/-- Zipping a mapped list against the original list is a single map. -/
theorem zipWith_map_self {α β : Type} (f : α → β) (g : β → α → β) :
    ∀ l : List α, List.zipWith g (l.map f) l = l.map (fun a => g (f a) a) := by
  intro l
  induction l with
  | nil => rfl
  | cons a t ih => simp [ih]

/-- Claim C2 amended: for requests consisting solely of recognised
platforms, audience_fit is exactly the fixed-weight blend renormalised by
the number of requested platforms (linkedin scored with fixed content type
"post"); a request with no recognised platform gets the fallback 0.5.
Unrecognised entries contribute no score at all — they instead shift the
`zip` pairing of collected scores with the requested list, so the 0.33
default weight never multiplies a score of the unrecognised platform. -/
theorem claim_C2_amended :
    (∀ (content : String) (platforms : List String),
      (∀ p ∈ platforms, p = "twitter" ∨ p = "linkedin" ∨ p = "instagram") →
      platforms ≠ [] →
      calculate_audience_fit content platforms = audienceFitSpecBlend content platforms) ∧
    (∀ content : String, calculate_audience_fit content [] = 1/2) := by
  constructor
  · intro content platforms hrec hne
    unfold calculate_audience_fit audienceFitSpecBlend
    rw [audience_scores_eq_map content platforms hrec]
    rw [if_neg (by simpa using hne)]
    rw [zipWith_map_self]
    simp
  · intro content
    simp [calculate_audience_fit]

/-- Witness for the amended C2 at text "hello" with platforms
["twitter", "instagram"], and the 0.5 fallback for an empty request. -/
theorem claim_C2_witness :
    calculate_audience_fit "hello" ["twitter", "instagram"]
      = audienceFitSpecBlend "hello" ["twitter", "instagram"] ∧
    calculate_audience_fit "hello" [] = 1/2 :=
  ⟨claim_C2_amended.1 "hello" ["twitter", "instagram"] (by decide) (by decide),
   claim_C2_amended.2 "hello"⟩

/-! ## Claim C6 — every score field lies in [0,1] -/

/-- The twitter score lies in [0,1]. -/
theorem calculate_twitter_score_bounds (content : String) :
    0 ≤ calculate_twitter_score content ∧ calculate_twitter_score content ≤ 1 := by
  simp only [calculate_twitter_score]
  have hls : (0:ℚ) ≤ 1 - min (|(wordCount content : ℚ) - 250| / 250) 1 := by
    have := min_le_right (|(wordCount content : ℚ) - 250| / 250) (1:ℚ)
    linarith
  refine ⟨le_min ?_ zero_le_one, min_le_right _ _⟩
  split_ifs <;> linarith

/-- The linkedin score lies in [0,1] for every content type. -/
theorem calculate_linkedin_score_bounds (content content_type : String) :
    0 ≤ calculate_linkedin_score content content_type ∧
    calculate_linkedin_score content content_type ≤ 1 := by
  simp only [calculate_linkedin_score]
  have hls : (0:ℚ) ≤ 1 - min (|(wordCount content : ℚ) - linkedinIdealLength content_type|
      / linkedinIdealLength content_type) 1 := by
    have := min_le_right (|(wordCount content : ℚ) - linkedinIdealLength content_type|
      / linkedinIdealLength content_type) (1:ℚ)
    linarith
  refine ⟨le_min ?_ zero_le_one, min_le_right _ _⟩
  split_ifs <;> linarith

/-- The instagram score lies in [0,1]. -/
theorem calculate_instagram_score_bounds (content : String) :
    0 ≤ calculate_instagram_score content ∧ calculate_instagram_score content ≤ 1 := by
  simp only [calculate_instagram_score]
  have hls : (0:ℚ) ≤ 1 - min (|(wordCount content : ℚ) - 150| / 150) 1 := by
    have := min_le_right (|(wordCount content : ℚ) - 150| / 150) (1:ℚ)
    linarith
  refine ⟨le_min ?_ zero_le_one, min_le_right _ _⟩
  split_ifs <;> linarith

/-- The fixed platform weights (with the 0.33 default) lie in [0, 0.35]. -/
theorem platformWeight_bounds (p : String) :
    0 ≤ platformWeight p ∧ platformWeight p ≤ 7/20 := by
  simp only [platformWeight]
  split_ifs <;> norm_num

/-- Every score collected by `_calculate_audience_fit` lies in [0,1]. -/
theorem audience_scores_bounds (content : String) (platforms : List String) :
    ∀ s ∈ platforms.filterMap (fun platform =>
      if platform = "twitter" then some (calculate_twitter_score content)
      else if platform = "linkedin" then some (calculate_linkedin_score content "post")
      else if platform = "instagram" then some (calculate_instagram_score content)
      else none), 0 ≤ s ∧ s ≤ 1 := by
  intro s hs
  rw [List.mem_filterMap] at hs
  obtain ⟨p, -, hp⟩ := hs
  split_ifs at hp
  · simp only [Option.some.injEq] at hp
    exact hp ▸ calculate_twitter_score_bounds content
  · simp only [Option.some.injEq] at hp
    exact hp ▸ calculate_linkedin_score_bounds content "post"
  · simp only [Option.some.injEq] at hp
    exact hp ▸ calculate_instagram_score_bounds content

/-- Each weighted entry of the audience-fit zip lies in [0, 0.35]. -/
theorem zipWith_weight_bounds :
    ∀ (scores : List ℚ) (platforms : List String),
    (∀ s ∈ scores, 0 ≤ s ∧ s ≤ 1) →
    ∀ x ∈ List.zipWith (fun score platform => score * platformWeight platform) scores platforms,
    0 ≤ x ∧ x ≤ 7/20 := by
  intro scores
  induction scores with
  | nil => intro platforms h x hx; simp at hx
  | cons s t ih =>
    intro platforms h x hx
    cases platforms with
    | nil => simp at hx
    | cons p ps =>
      simp only [List.zipWith_cons_cons, List.mem_cons] at hx
      rcases hx with rfl | hx
      · have hs := h s (List.mem_cons_self s t)
        have hw := platformWeight_bounds p
        refine ⟨mul_nonneg hs.1 hw.1, ?_⟩
        calc s * platformWeight p ≤ 1 * (7/20) :=
              mul_le_mul hs.2 hw.2 hw.1 zero_le_one
          _ = 7/20 := by norm_num
      · exact ih ps (fun y hy => h y (List.mem_cons_of_mem _ hy)) x hx

/-- A list with entries in [0, c] has a sum in [0, length * c]. -/
theorem list_sum_bounds :
    ∀ (l : List ℚ) (c : ℚ), (∀ x ∈ l, 0 ≤ x ∧ x ≤ c) →
    0 ≤ l.sum ∧ l.sum ≤ (l.length : ℚ) * c := by
  intro l c
  induction l with
  | nil => intro _; simp
  | cons a t ih =>
    intro h
    have ha := h a (List.mem_cons_self a t)
    have ht := ih (fun x hx => h x (List.mem_cons_of_mem _ hx))
    constructor
    · simp only [List.sum_cons]
      linarith [ht.1, ha.1]
    · simp only [List.sum_cons, List.length_cons]
      push_cast
      linarith [ht.2, ha.2]

/-- The audience fit lies in [0,1] for every text and platform list. -/
theorem calculate_audience_fit_bounds (content : String) (platforms : List String) :
    0 ≤ calculate_audience_fit content platforms ∧
    calculate_audience_fit content platforms ≤ 1 := by
  simp only [calculate_audience_fit]
  set scores := platforms.filterMap (fun platform =>
    if platform = "twitter" then some (calculate_twitter_score content)
    else if platform = "linkedin" then some (calculate_linkedin_score content "post")
    else if platform = "instagram" then some (calculate_instagram_score content)
    else none) with hscores
  by_cases hsc : scores = []
  · rw [if_pos hsc]
    norm_num
  · rw [if_neg hsc]
    set weighted := List.zipWith (fun score platform => score * platformWeight platform)
      scores platforms with hweighted
    have hmem : ∀ x ∈ weighted, 0 ≤ x ∧ x ≤ 7/20 := by
      rw [hweighted]
      refine zipWith_weight_bounds scores platforms ?_
      rw [hscores]
      exact audience_scores_bounds content platforms
    have hsum := list_sum_bounds weighted (7/20) hmem
    have hlen : 1 ≤ weighted.length := by
      rw [hweighted, List.length_zipWith]
      have h1 : 0 < scores.length := List.length_pos.mpr hsc
      have h2 : scores.length ≤ platforms.length := by
        rw [hscores]
        exact List.length_filterMap_le _ _
      omega
    have hlenq : (0:ℚ) < (weighted.length : ℚ) := by
      exact_mod_cast Nat.lt_of_lt_of_le Nat.zero_lt_one hlen
    constructor
    · exact div_nonneg hsum.1 (le_of_lt hlenq)
    · rw [div_le_one hlenq]
      calc weighted.sum ≤ (weighted.length : ℚ) * (7/20) := hsum.2
        _ ≤ (weighted.length : ℚ) * 1 :=
            mul_le_mul_of_nonneg_left (by norm_num) (le_of_lt hlenq)
        _ = (weighted.length : ℚ) := mul_one _

/-- The emotional-tone sub-score lies in [0,1]. -/
theorem detect_emotional_content_bounds (content : String) :
    0 ≤ detect_emotional_content content ∧ detect_emotional_content content ≤ 1 := by
  simp only [detect_emotional_content]
  split_ifs with h
  · have htot : (0:ℚ) ≤
        ((["amazing", "incredible", "awesome", "fantastic"].filter
          (fun w => containsSub (pyLower content) w)).length : ℚ) * 1
        + ((["good", "great", "nice", "cool"].filter
          (fun w => containsSub (pyLower content) w)).length : ℚ) * (3/5)
        + ((["okay", "fine", "normal", "average"].filter
          (fun w => containsSub (pyLower content) w)).length : ℚ) * (3/10) := by
      positivity
    exact ⟨le_min (div_nonneg htot (le_of_lt h)) zero_le_one, min_le_right _ _⟩
  · norm_num

/-- The shareability sub-score lies in [0,1]. -/
theorem calculate_shareability_bounds (content : String) :
    0 ≤ calculate_shareability content ∧ calculate_shareability content ≤ 1 := by
  simp only [calculate_shareability]
  refine ⟨le_min ?_ zero_le_one, min_le_right _ _⟩
  split_ifs <;> norm_num

/-- The timeliness sub-score lies in [0,1] (it is 1 or 0.5). -/
theorem check_timeliness_bounds (current_year content : String) :
    0 ≤ check_timeliness current_year content ∧ check_timeliness current_year content ≤ 1 := by
  simp only [check_timeliness]
  split_ifs <;> norm_num

/-- The readability sub-score lies in [0,1]. -/
theorem calculate_readability_bounds (content : String) :
    0 ≤ calculate_readability content ∧ calculate_readability content ≤ 1 := by
  simp only [calculate_readability]
  split_ifs with h
  · norm_num
  · exact ⟨le_max_right _ _, max_le (min_le_right _ _) zero_le_one⟩

/-- The structure sub-score lies in [0,1]. -/
theorem analyze_structure_bounds (content : String) :
    0 ≤ analyze_structure content ∧ analyze_structure content ≤ 1 := by
  simp only [analyze_structure]
  split_ifs <;>
    first
    | exact ⟨le_max_right _ _, max_le (min_le_right _ _) zero_le_one⟩
    | norm_num

/-- The predicted-engagement sub-score lies in [0,1]. -/
theorem predict_engagement_bounds (content : String) :
    0 ≤ predict_engagement content ∧ predict_engagement content ≤ 1 := by
  simp only [predict_engagement]
  refine ⟨le_min ?_ zero_le_one, min_le_right _ _⟩
  split_ifs <;> norm_num

/-- The originality score lies in [0,1] for every state. -/
theorem check_originality_bounds (st : CoreState) (content : String) :
    0 ≤ check_originality st content ∧ check_originality st content ≤ 1 := by
  simp only [check_originality]
  by_cases hc : st.content_cache = []
  · rw [if_pos hc]
    norm_num
  · rw [if_neg hc]
    rcases hv : st.vocab with _ | V <;> simp only [hv]
    · norm_num
    · exact ⟨le_max_right _ _, max_le (min_le_right _ _) zero_le_one⟩

/-- The virality potential lies in [0,1] for every state, year and text. -/
theorem calculate_virality_potential_bounds (st : CoreState) (current_year content : String) :
    0 ≤ calculate_virality_potential st current_year content ∧
    calculate_virality_potential st current_year content ≤ 1 := by
  simp only [calculate_virality_potential, calculate_uniqueness]
  have he : (0:ℝ) ≤ ((detect_emotional_content content : ℚ) : ℝ) := by
    exact_mod_cast (detect_emotional_content_bounds content).1
  have hs : (0:ℝ) ≤ ((calculate_shareability content : ℚ) : ℝ) := by
    exact_mod_cast (calculate_shareability_bounds content).1
  have hu : (0:ℝ) ≤ check_originality st content := (check_originality_bounds st content).1
  have ht : (0:ℝ) ≤ ((check_timeliness current_year content : ℚ) : ℝ) := by
    exact_mod_cast (check_timeliness_bounds current_year content).1
  refine ⟨le_min ?_ zero_le_one, min_le_right _ _⟩
  have h1 : (0:ℝ) ≤ (3/10:ℝ) * ((detect_emotional_content content : ℚ) : ℝ) :=
    mul_nonneg (by norm_num) he
  have h2 : (0:ℝ) ≤ (3/10:ℝ) * ((calculate_shareability content : ℚ) : ℝ) :=
    mul_nonneg (by norm_num) hs
  have h3 : (0:ℝ) ≤ (1/5:ℝ) * check_originality st content :=
    mul_nonneg (by norm_num) hu
  have h4 : (0:ℝ) ≤ (1/5:ℝ) * ((check_timeliness current_year content : ℚ) : ℝ) :=
    mul_nonneg (by norm_num) ht
  linarith

/-- The quality score lies in [0,1] for every state and text. -/
theorem calculate_quality_score_bounds (st : CoreState) (content : String) :
    0 ≤ calculate_quality_score st content ∧ calculate_quality_score st content ≤ 1 := by
  simp only [calculate_quality_score]
  have hr : (0:ℝ) ≤ ((calculate_readability content : ℚ) : ℝ) := by
    exact_mod_cast (calculate_readability_bounds content).1
  have hs : (0:ℝ) ≤ ((analyze_structure content : ℚ) : ℝ) := by
    exact_mod_cast (analyze_structure_bounds content).1
  have he : (0:ℝ) ≤ ((predict_engagement content : ℚ) : ℝ) := by
    exact_mod_cast (predict_engagement_bounds content).1
  have ho : (0:ℝ) ≤ check_originality st content := (check_originality_bounds st content).1
  refine ⟨le_min ?_ zero_le_one, min_le_right _ _⟩
  have h1 : (0:ℝ) ≤ (3/10:ℝ) * ((calculate_readability content : ℚ) : ℝ) :=
    mul_nonneg (by norm_num) hr
  have h2 : (0:ℝ) ≤ (1/5:ℝ) * ((analyze_structure content : ℚ) : ℝ) :=
    mul_nonneg (by norm_num) hs
  have h3 : (0:ℝ) ≤ (3/10:ℝ) * ((predict_engagement content : ℚ) : ℝ) :=
    mul_nonneg (by norm_num) he
  have h4 : (0:ℝ) ≤ (1/5:ℝ) * check_originality st content :=
    mul_nonneg (by norm_num) ho
  linarith

/-- Claim C6: for every input on which the metrics operation returns a
record, the four numeric score fields — engagement_score,
virality_potential, audience_fit, content_quality_score — lie in the
closed interval [0,1]. -/
theorem claim_C6_scores_in_unit_interval :
    ∀ (st : CoreState) (content : String) (platforms : List String)
      (content_type current_year : String) (is_weekend : Bool)
      (st' : CoreState) (m : ContentMetrics),
    generate_content_metrics st content platforms content_type current_year is_weekend
      = .ok (st', m) →
    (0 ≤ m.engagement_score ∧ m.engagement_score ≤ 1) ∧
    (0 ≤ m.virality_potential ∧ m.virality_potential ≤ 1) ∧
    (0 ≤ m.audience_fit ∧ m.audience_fit ≤ 1) ∧
    (0 ≤ m.content_quality_score ∧ m.content_quality_score ≤ 1) := by
  intro st content platforms content_type current_year is_weekend st' m h
  unfold generate_content_metrics at h
  cases hg : generate_hashtags st content content_type with
  | error e => rw [hg] at h; exact absurd h (by simp)
  | ok p =>
    rw [hg] at h
    simp only [Except.ok.injEq, Prod.mk.injEq] at h
    obtain ⟨-, hm⟩ := h
    subst hm
    refine ⟨?_, calculate_virality_potential_bounds p.1 current_year content,
      calculate_audience_fit_bounds content platforms,
      calculate_quality_score_bounds p.1 content⟩
    have h1 := calculate_twitter_score_bounds content
    have h2 := calculate_linkedin_score_bounds content content_type
    have h3 := calculate_instagram_score_bounds content
    show 0 ≤ ([calculate_twitter_score content,
        calculate_linkedin_score content content_type,
        calculate_instagram_score content].sum) / 3 ∧
      ([calculate_twitter_score content,
        calculate_linkedin_score content content_type,
        calculate_instagram_score content].sum) / 3 ≤ 1
    simp only [List.sum_cons, List.sum_nil]
    constructor <;> [linarith [h1.1, h2.1, h3.1]; linarith [h1.2, h2.2, h3.2]]

/-- The sample run used by the C6 witness. -/
noncomputable def c6run : Except String (CoreState × ContentMetrics) :=
  generate_content_metrics ⟨none, []⟩ "hello world" ["twitter"] "post" "2026" false

/-- The state produced by the C6 sample run. -/
noncomputable def c6state : CoreState :=
  (c6run.toOption.map Prod.fst).getD default

/-- The metrics record produced by the C6 sample run. -/
noncomputable def c6metrics : ContentMetrics :=
  (c6run.toOption.map Prod.snd).getD default

/-- Witness for C6 at a concrete successful run. -/
theorem claim_C6_witness :
    (0 ≤ c6metrics.engagement_score ∧ c6metrics.engagement_score ≤ 1) ∧
    (0 ≤ c6metrics.virality_potential ∧ c6metrics.virality_potential ≤ 1) ∧
    (0 ≤ c6metrics.audience_fit ∧ c6metrics.audience_fit ≤ 1) ∧
    (0 ≤ c6metrics.content_quality_score ∧ c6metrics.content_quality_score ≤ 1) :=
  claim_C6_scores_in_unit_interval ⟨none, []⟩ "hello world" ["twitter"] "post" "2026" false
    c6state c6metrics (by with_unfolding_all rfl)
